import Mathlib

/-
Verification development for the MCM-Tools repository (src/main.py).

The program is a PySide6 window embedding a PyVista 3D canvas with two
button actions. We give a shallow embedding of:
  * get_resource_path (main.py lines 17-29), over POSIX path strings;
  * the icon-assignment steps in MainWindow.__init__ (lines 44-48) and in
    the __main__ block (lines 155-157), as lists of observable effects;
  * the canvas (plotter) state and the operations init_ui, plot_sphere,
    clear_plot and closeEvent act on it (lines 53-144).
-/

namespace MCMTools

/-- Model of os.path.isabs for POSIX-style paths: a path is absolute when
it starts with a slash. -/
def isAbsolute (p : String) : Bool :=
  match p.data with
  | [] => false
  | c :: _ => c = '/'

/-- Predicate used by os.path.join: whether the base already ends with a
separator. -/
def endsWithSlash (p : String) : Bool :=
  match p.data.getLast? with
  | some c => c = '/'
  | none => false

/-- Model of os.path.join(base, p) for POSIX-style paths: an absolute
second component discards the base; otherwise a separator is inserted
unless the base is empty or already ends with one. -/
def joinPath (base p : String) : String :=
  if isAbsolute p then p
  else if base = "" then p
  else if endsWithSlash base then base ++ p
  else base ++ "/" ++ p

/-- Process environment facts that get_resource_path consults:
sys._MEIPASS when the packaging marker attribute is present, and
os.path.dirname(os.path.abspath(__file__)) for the entry script. -/
structure PyEnv where
  meipass : Option String
  scriptDir : String
deriving DecidableEq

/-- Embedding of get_resource_path (main.py lines 17-29): pick the base
from the packaging marker, falling back to the script directory, and join
the relative path onto it. -/
def get_resource_path (env : PyEnv) (relative_path : String) : String :=
  let base_path :=
    match env.meipass with
    | some p => p
    | none => env.scriptDir
  joinPath base_path relative_path

/-- The base directory get_resource_path resolves, as a single value of
the environment. -/
def resolvedBase (env : PyEnv) : String :=
  match env.meipass with
  | some p => p
  | none => env.scriptDir

/-- The relative icon path os.path.join("resources", "icon.ico") used at
both call sites. -/
def icon_rel : String := joinPath "resources" "icon.ico"

/-- The window-level icon path resolution (main.py line 44). -/
def icon_path (env : PyEnv) : String := get_resource_path env icon_rel

/-- The application-level icon path resolution (main.py line 155). -/
def app_icon_path (env : PyEnv) : String := get_resource_path env icon_rel

/-- Observable effects of the two icon-assignment code blocks. -/
inductive IconEffect
  | setWindowIcon (path : String)
  | warn (msg : String)
deriving DecidableEq

/-- Embedding of the window-level icon assignment (main.py lines 44-48):
set the icon when the resolved path exists, otherwise print a warning. -/
def windowIconStep (env : PyEnv) (pathExists : String → Bool) : List IconEffect :=
  let p := icon_path env
  if pathExists p then
    [IconEffect.setWindowIcon p]
  else
    [IconEffect.warn ("⚠️ Warning: Icon not found at " ++ p)]

/-- Embedding of the application-level icon assignment (main.py lines
155-157): set the icon when the resolved path exists; the else branch is
absent, so nothing happens. -/
def appIconStep (env : PyEnv) (pathExists : String → Bool) : List IconEffect :=
  let p := app_icon_path env
  if pathExists p then
    [IconEffect.setWindowIcon p]
  else
    []

/-- Geometry produced by a pyvista primitive constructor. -/
structure Geometry where
  kind : String
  radius : ℚ
deriving DecidableEq

/-- Embedding of pv.Sphere(radius): a sphere geometry of the given
radius. -/
def pv.Sphere (radius : ℚ) : Geometry :=
  { kind := "sphere", radius := radius }

/-- A mesh actor in the scene: geometry plus the display options passed to
add_mesh (color, show_edges, pbr, opacity). -/
structure Actor where
  geom : Geometry
  color : String
  show_edges : Bool
  pbr : Bool
  opacity : ℚ
deriving DecidableEq

/-- A text actor added by add_text (text, position, color). -/
structure TextActor where
  text : String
  position : String
  color : String
deriving DecidableEq

/-- Camera state: either never reset, or framing the actors present at the
last reset_camera call. -/
inductive Camera
  | initial
  | resetTo (actors : List Actor)
deriving DecidableEq

/-- State of the embedded PyVista plotter: mesh actors, text actors, the
axes orientation indicator, background color, and camera. -/
structure PlotterState where
  meshes : List Actor
  texts : List TextActor
  axesOn : Bool
  background : String
  camera : Camera
deriving DecidableEq

/-- Embedding of plotter.clear(): removes every actor from the scene
(meshes, text, the axes indicator); background and camera are untouched. -/
def PlotterState.clear (s : PlotterState) : PlotterState :=
  { s with meshes := [], texts := [], axesOn := false }

/-- Embedding of plotter.set_background(color). -/
def PlotterState.set_background (s : PlotterState) (color : String) : PlotterState :=
  { s with background := color }

/-- Embedding of plotter.add_axes(): shows the axes indicator. -/
def PlotterState.add_axes (s : PlotterState) : PlotterState :=
  { s with axesOn := true }

/-- Embedding of plotter.add_text(text, position, color): appends a text
actor. -/
def PlotterState.add_text (s : PlotterState) (text position color : String) : PlotterState :=
  { s with texts := s.texts ++ [{ text := text, position := position, color := color }] }

/-- Embedding of plotter.add_mesh(geom, color, show_edges, pbr, opacity):
appends a mesh actor with those display options. -/
def PlotterState.add_mesh (s : PlotterState) (geom : Geometry) (color : String)
    (show_edges pbr : Bool) (opacity : ℚ) : PlotterState :=
  { s with meshes := s.meshes ++ [{ geom := geom, color := color,
                                    show_edges := show_edges, pbr := pbr,
                                    opacity := opacity }] }

/-- Embedding of plotter.reset_camera(): frames the actors currently in
the scene. -/
def PlotterState.reset_camera (s : PlotterState) : PlotterState :=
  { s with camera := Camera.resetTo s.meshes }

/-- A freshly constructed QtInteractor before init_ui configures it: no
actors, toolkit default background, camera never reset. -/
def freshPlotter : PlotterState :=
  { meshes := [], texts := [], axesOn := false,
    background := "default", camera := Camera.initial }

/-- Embedding of the canvas part of MainWindow.init_ui (main.py lines
108-111): white background, axes indicator, placeholder text. -/
def init_ui (s : PlotterState) : PlotterState :=
  ((s.set_background "white").add_axes).add_text "Ready for Data..." "upper_left" "black"

/-- The canvas state right after MainWindow construction. -/
def initPlotter : PlotterState := init_ui freshPlotter

/-- Embedding of MainWindow construction (main.py lines 35-51): the icon
step effects together with the configured canvas state. Construction is a
total function, so it never raises. -/
def MainWindow.mk (env : PyEnv) (pathExists : String → Bool) :
    List IconEffect × PlotterState :=
  (windowIconStep env pathExists, initPlotter)

/-- Embedding of MainWindow.plot_sphere (main.py lines 116-132): clear the
scene, re-add axes, add one sphere of radius 0.5 in semi-transparent
orange with visible edges, replace the status text, reset the camera. -/
def plot_sphere (s : PlotterState) : PlotterState :=
  let s1 := s.clear
  let s2 := s1.add_axes
  let sphere := pv.Sphere (1/2)
  let s3 := s2.add_mesh sphere "orange" true false (4/5)
  let s4 := s3.add_text "Model: 3D Sphere" "upper_left" "black"
  s4.reset_camera

/-- Embedding of MainWindow.clear_plot (main.py lines 134-139): clear the
scene, reset the background to white, re-add the axes indicator. -/
def clear_plot (s : PlotterState) : PlotterState :=
  ((s.clear).set_background "white").add_axes

/-- Observable steps of MainWindow.closeEvent. -/
inductive CloseStep
  | plotterClose
  | eventAccept
deriving DecidableEq

/-- Embedding of MainWindow.closeEvent (main.py lines 141-144): close the
plotter, then accept the close event. A constant list: the handler is
total and unconditional. -/
def closeEvent : List CloseStep :=
  [CloseStep.plotterClose, CloseStep.eventAccept]

/-- The two button-click actions wired up in init_ui. -/
inductive Click
  | drawSphere
  | clearCanvas
deriving DecidableEq

/-- Dispatch of a button click to its handler. -/
def applyClick : Click → PlotterState → PlotterState
  | Click.drawSphere, s => plot_sphere s
  | Click.clearCanvas, s => clear_plot s

/-- Run a sequence of button clicks from a state. -/
def runClicks (cs : List Click) (s : PlotterState) : PlotterState :=
  cs.foldl (fun t c => applyClick c t) s

/-- The one mesh actor plot_sphere places in the scene. -/
def sphereActor : Actor :=
  { geom := pv.Sphere (1/2), color := "orange",
    show_edges := true, pbr := false, opacity := 4/5 }

/-- Abstract two-state view of the scene. -/
inductive SceneAbs
  | Empty
  | ShowingSphere
deriving DecidableEq

/-- Abstraction of a plotter state by its mesh content. -/
def absState (s : PlotterState) : SceneAbs :=
  if s.meshes = [] then SceneAbs.Empty else SceneAbs.ShowingSphere

/-- The abstract state each click drives the scene to. -/
def clickTarget : Click → SceneAbs
  | Click.drawSphere => SceneAbs.ShowingSphere
  | Click.clearCanvas => SceneAbs.Empty

/-- C1: for every relative path argument, get_resource_path returns that
path joined onto a base directory selected by run mode: with the packaging
marker present the base is the marker's extraction directory, without it
the base is the entry script's directory; for a nonempty base without a
trailing separator the result is literally base ++ "/" ++ path. -/
theorem get_resource_path_mode (env : PyEnv) (rel : String)
    (hrel : isAbsolute rel = false) :
    (∀ m, env.meipass = some m → get_resource_path env rel = joinPath m rel) ∧
    (env.meipass = none → get_resource_path env rel = joinPath env.scriptDir rel) ∧
    (∀ m, env.meipass = some m → m ≠ "" → endsWithSlash m = false →
      get_resource_path env rel = m ++ "/" ++ rel) ∧
    (env.meipass = none → env.scriptDir ≠ "" → endsWithSlash env.scriptDir = false →
      get_resource_path env rel = env.scriptDir ++ "/" ++ rel) := by
  refine ⟨?_, ?_, ?_, ?_⟩
  · intro m hm; simp [get_resource_path, hm]
  · intro hm; simp [get_resource_path, hm]
  · intro m hm hne hsl
    simp [get_resource_path, hm, joinPath, hrel, hne, hsl]
  · intro hne hsl hsl2
    simp [get_resource_path, hne, joinPath, hrel, hsl, hsl2]

/-- C1 witness: evaluated at the relative input
os.path.join("resources", "icon.ico") for both run modes. -/
theorem get_resource_path_mode_witness :
    get_resource_path { meipass := some "/tmp/onefile_mei", scriptDir := "/home/dev/app" }
        icon_rel = "/tmp/onefile_mei" ++ "/" ++ icon_rel ∧
    get_resource_path { meipass := none, scriptDir := "/home/dev/app" }
        icon_rel = "/home/dev/app" ++ "/" ++ icon_rel :=
  ⟨(get_resource_path_mode
      { meipass := some "/tmp/onefile_mei", scriptDir := "/home/dev/app" } icon_rel
      (by decide)).2.2.1 "/tmp/onefile_mei" rfl (by decide) (by decide),
   (get_resource_path_mode
      { meipass := none, scriptDir := "/home/dev/app" } icon_rel
      (by decide)).2.2.2 rfl (by decide) (by decide)⟩

/-- C2 counterexample: with the resolved icon path absent, the
application-level icon assignment emits no warning at all, contradicting
the claim that a warning is emitted at both sites. -/
theorem app_icon_no_warning :
    ¬ ∃ m, IconEffect.warn m ∈
      appIconStep { meipass := none, scriptDir := "/opt/mcm" } (fun _ => false) := by
  intro h
  obtain ⟨m, hm⟩ := h
  simp [appIconStep] at hm

/-- C2 (amended): whenever the resolved icon path does not exist, window
construction still succeeds without an icon and without raising, and a
warning is emitted at the window-level icon assignment; the
application-level icon assignment silently skips the icon with no warning
and no effect. -/
theorem missing_icon_handling (env : PyEnv) (pathExists : String → Bool)
    (h : pathExists (icon_path env) = false) :
    windowIconStep env pathExists
      = [IconEffect.warn ("⚠️ Warning: Icon not found at " ++ icon_path env)] ∧
    (∀ p, IconEffect.setWindowIcon p ∉ windowIconStep env pathExists) ∧
    appIconStep env pathExists = [] ∧
    (MainWindow.mk env pathExists).2 = initPlotter := by
  have h2 : pathExists (app_icon_path env) = false := h
  refine ⟨?_, ?_, ?_, rfl⟩
  · simp [windowIconStep, h]
  · intro p; simp [windowIconStep, h]
  · simp [appIconStep, h2]

/-- C2 witness: a concrete environment whose icon path never exists. -/
theorem missing_icon_handling_witness :
    appIconStep { meipass := none, scriptDir := "/opt/mcm2" } (fun _ => false) = [] ∧
    (MainWindow.mk { meipass := none, scriptDir := "/opt/mcm2" } (fun _ => false)).2
      = initPlotter :=
  ⟨(missing_icon_handling { meipass := none, scriptDir := "/opt/mcm2" }
      (fun _ => false) rfl).2.2.1,
   (missing_icon_handling { meipass := none, scriptDir := "/opt/mcm2" }
      (fun _ => false) rfl).2.2.2⟩

/-- C3: plot_sphere is idempotent on the scene state: a second invocation
leaves meshes, texts, the axes indicator, the background and the camera
exactly as the first left them. -/
theorem plot_sphere_idempotent (s : PlotterState) :
    plot_sphere (plot_sphere s) = plot_sphere s := rfl

/-- C4: plot_sphere performs, in order, clear, add_axes, add_mesh of one
sphere of radius 0.5 with orange color, opacity 0.8 (semi-transparent) and
visible edges, a status-text replacement, and a camera reset framing the
new content. -/
theorem plot_sphere_effects (s : PlotterState) :
    plot_sphere s =
      ((((s.clear).add_axes).add_mesh (pv.Sphere (1/2)) "orange" true false
        (4/5)).add_text "Model: 3D Sphere" "upper_left" "black").reset_camera ∧
    (plot_sphere s).meshes = [sphereActor] ∧
    sphereActor.geom = pv.Sphere (1/2) ∧
    sphereActor.geom.radius = 1/2 ∧
    sphereActor.color = "orange" ∧
    (0 < sphereActor.opacity ∧ sphereActor.opacity < 1) ∧
    sphereActor.show_edges = true ∧
    (plot_sphere s).texts
      = [{ text := "Model: 3D Sphere", position := "upper_left", color := "black" }] ∧
    (plot_sphere s).axesOn = true ∧
    (plot_sphere s).camera = Camera.resetTo [sphereActor] := by
  refine ⟨rfl, rfl, rfl, rfl, rfl, ⟨?_, ?_⟩, rfl, rfl, rfl, rfl⟩
  · norm_num [sphereActor]
  · norm_num [sphereActor]

/-- C5: after clear_plot, from any scene state (in particular right after
plot_sphere), the mesh count is zero, the background is white, and the
axes indicator is present. -/
theorem clear_plot_resets (s : PlotterState) :
    (clear_plot s).meshes = [] ∧
    (clear_plot s).background = "white" ∧
    (clear_plot s).axesOn = true ∧
    (clear_plot (plot_sphere s)).meshes = [] ∧
    (clear_plot (plot_sphere s)).background = "white" ∧
    (clear_plot (plot_sphere s)).axesOn = true :=
  ⟨rfl, rfl, rfl, rfl, rfl, rfl⟩

/-- C6: under every click sequence from the constructed initial state the
scene holds either zero meshes or exactly the one sphere (no
accumulation); each click drives the abstract two-state machine to the
state it names, independent of the prior state, and the mesh content after
a sequence is that of its last click. -/
theorem two_state_machine :
    absState initPlotter = SceneAbs.Empty ∧
    (∀ cs : List Click,
      (runClicks cs initPlotter).meshes = [] ∨
      (runClicks cs initPlotter).meshes = [sphereActor]) ∧
    (∀ (s : PlotterState) (c : Click), absState (applyClick c s) = clickTarget c) ∧
    (∀ (cs : List Click) (c : Click),
      (runClicks (cs ++ [c]) initPlotter).meshes =
        (match c with
         | Click.drawSphere => [sphereActor]
         | Click.clearCanvas => [])) := by
  have hstep : ∀ (s : PlotterState) (c : Click),
      (applyClick c s).meshes = [] ∨ (applyClick c s).meshes = [sphereActor] := by
    intro s c
    cases c
    · exact Or.inr rfl
    · exact Or.inl rfl
  have hrun : ∀ (cs : List Click) (s : PlotterState),
      (s.meshes = [] ∨ s.meshes = [sphereActor]) →
      ((runClicks cs s).meshes = [] ∨ (runClicks cs s).meshes = [sphereActor]) := by
    intro cs
    induction cs with
    | nil => intro s h; exact h
    | cons c cs ih =>
        intro s h
        exact ih (applyClick c s) (hstep s c)
  refine ⟨rfl, ?_, ?_, ?_⟩
  · intro cs
    exact hrun cs initPlotter (Or.inl rfl)
  · intro s c
    cases c
    · simp [applyClick, absState, clickTarget,
        show (plot_sphere s).meshes = [sphereActor] from rfl]
    · simp [applyClick, absState, clickTarget,
        show (clear_plot s).meshes = ([] : List Actor) from rfl]
  · intro cs c
    have hsplit : runClicks (cs ++ [c]) initPlotter
        = applyClick c (runClicks cs initPlotter) := by
      simp [runClicks, List.foldl_append]
    rw [hsplit]
    cases c
    · rfl
    · rfl

/-- C7: every window-close request releases the plotter exactly once,
before the event is accepted, and the handler is a total (non-throwing)
step list. -/
theorem closeEvent_releases_once :
    closeEvent.count CloseStep.plotterClose = 1 ∧
    closeEvent.indexOf CloseStep.plotterClose < closeEvent.indexOf CloseStep.eventAccept ∧
    closeEvent = [CloseStep.plotterClose, CloseStep.eventAccept] := by
  decide

/-- C8: get_resource_path is a pure function of the environment and the
relative path, always the join of the once-resolved base directory with
the argument, so any two calls with the same input agree and the
window-level and application-level icon-path resolutions are equal. -/
theorem resource_resolution_pure (env : PyEnv) (p : String) :
    get_resource_path env p = joinPath (resolvedBase env) p ∧
    icon_path env = app_icon_path env ∧
    get_resource_path env p = get_resource_path env p :=
  ⟨rfl, rfl, rfl⟩

/-- C9: plot_sphere never touches the background color, while clear_plot
and initial construction set it to white. -/
theorem plot_sphere_preserves_background (s : PlotterState) :
    (plot_sphere s).background = s.background ∧
    (clear_plot s).background = "white" ∧
    initPlotter.background = "white" :=
  ⟨rfl, rfl, rfl⟩

/-- C10: clear_plot leaves no status text on the canvas and does not
re-add any, so the post-clear state differs from the freshly constructed
initial state, which shows the placeholder text in the upper left. -/
theorem clear_plot_removes_text (s : PlotterState) :
    (clear_plot s).texts = [] ∧
    initPlotter.texts
      = [{ text := "Ready for Data...", position := "upper_left", color := "black" }] ∧
    clear_plot s ≠ initPlotter := by
  refine ⟨rfl, rfl, ?_⟩
  intro h
  have h2 : ([] : List TextActor)
      = [{ text := "Ready for Data...", position := "upper_left", color := "black" }] :=
    congrArg PlotterState.texts h
  exact List.cons_ne_nil _ _ h2.symm

end MCMTools
